import Mathlib

/-!
Verification development for the browser-side controller in
`src/static/js/app.js` (time-range parsing/validation and the simulated
download-progress state machine).  The pure logic of the source is shallowly
embedded below; DOM access is modelled by returning the values the source
would write (error messages, progress labels), and the periodic
`setInterval`/`clearInterval` timer is modelled by an `active` flag on the
progress state: a timer event after `clearInterval` no longer runs the
callback, which the embedding renders as the identity on the state.
-/

namespace App

/-- Numeric value of an ASCII digit character (what JavaScript `Number` does
to a single digit); `'0'` has code point 48. -/
def dval (c : Char) : Nat := c.toNat - 48

/-- Embedding of `parseTimeToSeconds` (app.js lines 68–77) on the character
list of the input string.  The regex `^\d{1,2}:\d{2}$` matches exactly the
4-character lists `digit ':' digit digit` and the 5-character lists
`digit digit ':' digit digit`; `split(':').map(Number)` yields the decimal
values of the two digit groups; `seconds >= 60` returns `null` (here `none`),
otherwise `minutes * 60 + seconds`. -/
def parseTimeChars : List Char → Option Nat
  | [a, b, c, d] =>
    if a.isDigit ∧ b = ':' ∧ c.isDigit ∧ d.isDigit then
      if 60 ≤ 10 * dval c + dval d then none
      else some (dval a * 60 + (10 * dval c + dval d))
    else none
  | [a, b, c, d, e] =>
    if a.isDigit ∧ b.isDigit ∧ c = ':' ∧ d.isDigit ∧ e.isDigit then
      if 60 ≤ 10 * dval d + dval e then none
      else some ((10 * dval a + dval b) * 60 + (10 * dval d + dval e))
    else none
  | _ => none

/-- `parseTimeToSeconds` on strings (app.js lines 68–77). -/
def parseTimeToSeconds (s : String) : Option Nat := parseTimeChars s.data

/-- The ASCII digit character of a value below 10 (used to embed JavaScript
`Number.prototype.toString` decimal rendering). -/
def digitChar : Nat → Char
  | 0 => '0'
  | 1 => '1'
  | 2 => '2'
  | 3 => '3'
  | 4 => '4'
  | 5 => '5'
  | 6 => '6'
  | 7 => '7'
  | 8 => '8'
  | 9 => '9'
  | _ => 'x'

/-- Decimal rendering of a natural number as a character list, embedding the
`${minutes}` / `secs.toString()` conversions in app.js lines 79–83. -/
def natToDecimal (n : Nat) : List Char :=
  if _h : n < 10 then [digitChar n]
  else natToDecimal (n / 10) ++ [digitChar (n % 10)]
decreasing_by exact Nat.div_lt_self (by omega) (by omega)

/-- Embedding of `String.prototype.padStart(2, '0')`: prepend `'0'`
characters until the length is at least 2. -/
def padStart2 (cs : List Char) : List Char :=
  if cs.length < 2 then List.replicate (2 - cs.length) '0' ++ cs else cs

/-- Embedding of `secondsToTimeStr` (app.js lines 79–83):
`Math.floor(seconds / 60)` rendered in decimal, a colon, and
`seconds % 60` rendered in decimal padded to two characters. -/
def secondsToTimeStr (seconds : Nat) : String :=
  String.mk (natToDecimal (seconds / 60) ++ ':' :: padStart2 (natToDecimal (seconds % 60)))

/-- Result of `validateTrimTimes`: the source returns `true`, or shows an
error message via `showError` and returns `false`.  The embedding keeps the
message so distinct failures stay distinguishable exactly as far as the
source distinguishes them. -/
inductive ValidationResult where
  | ok : ValidationResult
  | error : String → ValidationResult
deriving DecidableEq

/-- Embedding of `validateTrimTimes` (app.js lines 99–133).  `duration`
models `currentVideoInfo && currentVideoInfo.duration`: `none` stands for a
missing video info object or a missing duration field, and the JavaScript
truthiness test makes a present duration of `0` behave exactly like a
missing one, hence the `0 < d` guard. -/
def validateTrimTimes (isTrimmingEnabled : Bool) (startText endText : String)
    (duration : Option Nat) : ValidationResult :=
  if isTrimmingEnabled = false then .ok
  else
    match parseTimeToSeconds startText with
    | none => .error "Invalid start time format. Use MM:SS (e.g., 2:05)"
    | some startSeconds =>
      match parseTimeToSeconds endText with
      | none => .error "Invalid end time format. Use MM:SS (e.g., 2:35)"
      | some endSeconds =>
        if endSeconds ≤ startSeconds then .error "End time must be after start time"
        else
          match duration with
          | none => .ok
          | some d =>
            if 0 < d then
              if d ≤ startSeconds then .error "Start time cannot be greater than video duration"
              else if d < endSeconds then .error "End time cannot be greater than video duration"
              else .ok
            else .ok

/-- Embedding of the trim-times preparation in the download click handler
(app.js lines 374–379): when trimming is enabled the payload carries the
two-element array `[startSeconds, endSeconds]` of the parse results,
otherwise it stays `null` (`none`). -/
def prepareTrimTimes (isTrimmingEnabled : Bool) (startText endText : String) :
    Option (List (Option Nat)) :=
  if isTrimmingEnabled then
    some [parseTimeToSeconds startText, parseTimeToSeconds endText]
  else none

/-- The request body built by `downloadVideo` (app.js lines 157–163). -/
structure DownloadPayload where
  url : String
  format_id : String
  trim_times : Option (List (Option Nat))
deriving DecidableEq

/-- `downloadVideo` places its `trimTimes` argument unchanged into the
payload's `trim_times` field (app.js lines 159–163). -/
def mkDownloadPayload (url formatId : String) (trimTimes : Option (List (Option Nat))) :
    DownloadPayload :=
  { url := url, format_id := formatId, trim_times := trimTimes }

/-- Progress-simulation state: the `progress` variable, the status text last
painted by `updateProgressBar`, and whether the `setInterval` timer is still
installed (`clearInterval` has not run). -/
structure ProgressState where
  percent : ℚ
  label : String
  active : Bool
deriving DecidableEq

/-- The status text chosen inside the interval callback (app.js lines
387–393): start from `'Downloading...'`, overwrite with
`'Processing video...'` when `progress > 30 && isTrimmingEnabled`, then with
`'Trimming video...'` when `progress > 60 && isTrimmingEnabled`. -/
def statusLabel (p : ℚ) (isTrimmingEnabled : Bool) : String :=
  let s := "Downloading..."
  let s2 := if 30 < p ∧ isTrimmingEnabled = true then "Processing video..." else s
  if 60 < p ∧ isTrimmingEnabled = true then "Trimming video..." else s2

/-- One firing of the interval callback (app.js lines 383–396) with
`Math.random() * 15` modelled as an arbitrary increment `r` (the caller of
the theorems supplies `0 ≤ r < 15`): `progress += r`, clamp at 90, repaint.
If `clearInterval` has already run (`active = false`) the callback does not
fire, which the embedding renders as the identity. -/
def tick (isTrimmingEnabled : Bool) (r : ℚ) (st : ProgressState) : ProgressState :=
  if st.active = true then
    let p := st.percent + r
    let p2 := if 90 < p then 90 else p
    { percent := p2, label := statusLabel p2 isTrimmingEnabled, active := true }
  else st

/-- State painted by `showDownloadProgress` when the run starts (app.js line
282): `updateProgressBar(0, 'Preparing download...')`, timer to be started. -/
def initialProgress : ProgressState :=
  { percent := 0, label := "Preparing download...", active := true }

/-- Completion step in the download handler (app.js lines 406–407):
`clearInterval(progressInterval)` then
`updateProgressBar(100, 'Download complete!')`.  It writes fixed values and
tears the timer down, independent of the prior state. -/
def completeProgress (_ : ProgressState) : ProgressState :=
  { percent := 100, label := "Download complete!", active := false }

/-- Repeated firings of the interval callback from the start of a run, one
per element of `rs` (the successive `Math.random() * 15` draws). -/
def runTicks (isTrimmingEnabled : Bool) (rs : List ℚ) : ProgressState :=
  rs.foldl (fun st r => tick isTrimmingEnabled r st) initialProgress

/-- Specification-side description of the accepted time syntax, written from
the spec's words: one or two digits, a colon, exactly two digits, together
with the minutes and seconds values those digit groups denote. -/
inductive TimePat : List Char → Nat → Nat → Prop where
  | short (a c d : Char) : a.isDigit → c.isDigit → d.isDigit →
      TimePat [a, ':', c, d] (dval a) (10 * dval c + dval d)
  | long (a b d e : Char) : a.isDigit → b.isDigit → d.isDigit → e.isDigit →
      TimePat [a, b, ':', d, e] (10 * dval a + dval b) (10 * dval d + dval e)

/-- On a character list of the accepted shape with in-range seconds, the
parser returns `minutes * 60 + seconds`. -/
lemma parseTimeChars_of_pat {cs : List Char} {m sec : Nat}
    (hpat : TimePat cs m sec) (hle : sec ≤ 59) :
    parseTimeChars cs = some (m * 60 + sec) := by
  cases hpat with
  | short a c d ha hc hd =>
    simp only [parseTimeChars]
    rw [if_pos ⟨ha, trivial, hc, hd⟩, if_neg (by omega)]
  | long a b d e ha hb hd he =>
    simp only [parseTimeChars]
    rw [if_pos ⟨ha, hb, trivial, hd, he⟩, if_neg (by omega)]

/-- On a character list of the accepted shape whose seconds component is 60
or more, the parser fails. -/
lemma parseTimeChars_of_pat_ge60 {cs : List Char} {m sec : Nat}
    (hpat : TimePat cs m sec) (hge : 60 ≤ sec) :
    parseTimeChars cs = none := by
  cases hpat with
  | short a c d ha hc hd =>
    simp only [parseTimeChars]
    rw [if_pos ⟨ha, trivial, hc, hd⟩, if_pos (by omega)]
  | long a b d e ha hb hd he =>
    simp only [parseTimeChars]
    rw [if_pos ⟨ha, hb, trivial, hd, he⟩, if_pos (by omega)]

/-- Whenever the parser succeeds, the input had the accepted shape, its
seconds component was in range, and the value is `minutes * 60 + seconds`. -/
lemma pat_of_parseTimeChars {cs : List Char} {v : Nat}
    (h : parseTimeChars cs = some v) :
    ∃ m sec, TimePat cs m sec ∧ sec ≤ 59 ∧ v = m * 60 + sec := by
  match cs with
  | [a, b, c, d] =>
    simp only [parseTimeChars] at h
    by_cases hcond : a.isDigit ∧ b = ':' ∧ c.isDigit ∧ d.isDigit
    · obtain ⟨ha, hb, hc, hd⟩ := hcond
      subst hb
      rw [if_pos ⟨ha, rfl, hc, hd⟩] at h
      by_cases hsec : 60 ≤ 10 * dval c + dval d
      · rw [if_pos hsec] at h; exact absurd h (by simp)
      · rw [if_neg hsec] at h
        injection h with h2
        exact ⟨dval a, 10 * dval c + dval d, TimePat.short a c d ha hc hd, by omega,
          h2.symm⟩
    · rw [if_neg hcond] at h; exact absurd h (by simp)
  | [a, b, c, d, e] =>
    simp only [parseTimeChars] at h
    by_cases hcond : a.isDigit ∧ b.isDigit ∧ c = ':' ∧ d.isDigit ∧ e.isDigit
    · obtain ⟨ha, hb, hc, hd, he⟩ := hcond
      subst hc
      rw [if_pos ⟨ha, hb, rfl, hd, he⟩] at h
      by_cases hsec : 60 ≤ 10 * dval d + dval e
      · rw [if_pos hsec] at h; exact absurd h (by simp)
      · rw [if_neg hsec] at h
        injection h with h2
        exact ⟨10 * dval a + dval b, 10 * dval d + dval e,
          TimePat.long a b d e ha hb hd he, by omega, h2.symm⟩
    · rw [if_neg hcond] at h; exact absurd h (by simp)
  | [] => exact absurd h (by simp [parseTimeChars])
  | [_] => exact absurd h (by simp [parseTimeChars])
  | [_, _] => exact absurd h (by simp [parseTimeChars])
  | [_, _, _] => exact absurd h (by simp [parseTimeChars])
  | _ :: _ :: _ :: _ :: _ :: _ :: _ => exact absurd h (by simp [parseTimeChars])

/-- Inputs without the accepted shape are rejected. -/
lemma parseTimeChars_of_no_pat {cs : List Char}
    (h : ∀ m sec, ¬ TimePat cs m sec) : parseTimeChars cs = none := by
  cases hv : parseTimeChars cs with
  | none => rfl
  | some v =>
    obtain ⟨m, sec, hpat, -, -⟩ := pat_of_parseTimeChars hv
    exact absurd hpat (h m sec)

/-- A failed start parse is reported first, for every end text and
duration. -/
lemma validate_badStart (s e : String) (d : Option Nat)
    (h : parseTimeToSeconds s = none) :
    validateTrimTimes true s e d = .error "Invalid start time format. Use MM:SS (e.g., 2:05)" := by
  simp [validateTrimTimes, h]

/-- A failed end parse is reported next, for every duration. -/
lemma validate_badEnd (s e : String) (d : Option Nat) (sv : Nat)
    (hs : parseTimeToSeconds s = some sv) (he : parseTimeToSeconds e = none) :
    validateTrimTimes true s e d = .error "Invalid end time format. Use MM:SS (e.g., 2:35)" := by
  simp [validateTrimTimes, hs, he]

/-- An out-of-order pair is reported before any bounds check, for every
duration. -/
lemma validate_endNotAfter (s e : String) (d : Option Nat) (sv ev : Nat)
    (hs : parseTimeToSeconds s = some sv) (he : parseTimeToSeconds e = some ev)
    (hle : ev ≤ sv) :
    validateTrimTimes true s e d = .error "End time must be after start time" := by
  simp [validateTrimTimes, hs, he, hle]

/-- With a nonzero known duration, a start at or past the duration is
reported after the ordering check. -/
lemma validate_startBeyond (s e : String) (dv sv ev : Nat)
    (hs : parseTimeToSeconds s = some sv) (he : parseTimeToSeconds e = some ev)
    (hlt : sv < ev) (hdv : 0 < dv) (hge : dv ≤ sv) :
    validateTrimTimes true s e (some dv) =
      .error "Start time cannot be greater than video duration" := by
  simp [validateTrimTimes, hs, he, Nat.not_le.mpr hlt, hdv, hge]

/-- With a nonzero known duration, an end past the duration is reported
last. -/
lemma validate_endBeyond (s e : String) (dv sv ev : Nat)
    (hs : parseTimeToSeconds s = some sv) (he : parseTimeToSeconds e = some ev)
    (hlt : sv < ev) (hdv : 0 < dv) (hin : sv < dv) (hgt : dv < ev) :
    validateTrimTimes true s e (some dv) =
      .error "End time cannot be greater than video duration" := by
  simp [validateTrimTimes, hs, he, Nat.not_le.mpr hlt, hdv, Nat.not_le.mpr hin, hgt]

/-- All accepting branches: no duration, a zero (falsy) duration, or an
in-bounds range. -/
lemma validate_ok (s e : String) (d : Option Nat) (sv ev : Nat)
    (hs : parseTimeToSeconds s = some sv) (he : parseTimeToSeconds e = some ev)
    (hlt : sv < ev)
    (hd : d = none ∨ d = some 0 ∨ ∃ dv, d = some dv ∧ sv < dv ∧ ev ≤ dv) :
    validateTrimTimes true s e d = .ok := by
  rcases hd with hd | hd | ⟨dv, hd, h1, h2⟩
  · subst hd; simp [validateTrimTimes, hs, he, Nat.not_le.mpr hlt]
  · subst hd; simp [validateTrimTimes, hs, he, Nat.not_le.mpr hlt]
  · subst hd
    simp [validateTrimTimes, hs, he, Nat.not_le.mpr hlt, Nat.lt_of_lt_of_le h1 (Nat.le_refl dv),
      Nat.not_le.mpr h1, Nat.not_lt.mpr h2]

/-- C1 (amended): with trimming enabled, `validateTrimTimes` runs its checks
in exactly the order BadStart, BadEnd, EndNotAfterStart, StartBeyondMedia,
EndBeyondMedia, where the two bounds checks are applicable only when the
media duration is known and nonzero (a zero duration is falsy in the source
and skips them); for every input the first applicable failure is the one
reported, with no aggregation, and
`validateRange("0:10","0:05",true,100)` fails with EndNotAfterStart. -/
theorem c1_check_order :
    (∀ (s e : String) (d : Option Nat), parseTimeToSeconds s = none →
        validateTrimTimes true s e d =
          .error "Invalid start time format. Use MM:SS (e.g., 2:05)") ∧
    (∀ (s e : String) (d : Option Nat) (sv : Nat), parseTimeToSeconds s = some sv →
        parseTimeToSeconds e = none →
        validateTrimTimes true s e d =
          .error "Invalid end time format. Use MM:SS (e.g., 2:35)") ∧
    (∀ (s e : String) (d : Option Nat) (sv ev : Nat), parseTimeToSeconds s = some sv →
        parseTimeToSeconds e = some ev → ev ≤ sv →
        validateTrimTimes true s e d = .error "End time must be after start time") ∧
    (∀ (s e : String) (dv sv ev : Nat), parseTimeToSeconds s = some sv →
        parseTimeToSeconds e = some ev → sv < ev → 0 < dv → dv ≤ sv →
        validateTrimTimes true s e (some dv) =
          .error "Start time cannot be greater than video duration") ∧
    (∀ (s e : String) (dv sv ev : Nat), parseTimeToSeconds s = some sv →
        parseTimeToSeconds e = some ev → sv < ev → 0 < dv → sv < dv → dv < ev →
        validateTrimTimes true s e (some dv) =
          .error "End time cannot be greater than video duration") ∧
    validateTrimTimes true "0:10" "0:05" (some 100) =
      .error "End time must be after start time" := by
  exact ⟨validate_badStart, validate_badEnd, validate_endNotAfter, validate_startBeyond,
    validate_endBeyond, by decide⟩

/-- C1 witness: the ordered checks applied at concrete inputs; with
start "2:05", end "2:35" and duration 100 the first applicable failure is
the start bounds check. -/
theorem c1_check_order_witness :
    validateTrimTimes true "2:05" "2:35" (some 100) =
      .error "Start time cannot be greater than video duration" :=
  c1_check_order.2.2.2.1 "2:05" "2:35" 100 125 155 (by decide) (by decide) (by decide)
    (by decide) (by decide)

/-- C1 counterexample: with the known, non-null media duration 0 the claim's
check list makes StartBeyondMedia the first applicable failure (a parsed
start of 10 satisfies `start ≥ 0`), yet the code reports no failure at all,
because a zero duration is falsy and skips both bounds checks.  Moreover at
the claim's own example input the bounds checks would in fact pass
(10 < 100 and 5 ≤ 100), not fail. -/
theorem c1_counterexample :
    parseTimeToSeconds "0:10" = some 10 ∧ parseTimeToSeconds "0:20" = some 20 ∧
    validateTrimTimes true "0:10" "0:20" (some 0) = .ok ∧
    validateTrimTimes true "0:10" "0:20" (some 0) ≠
      .error "Start time cannot be greater than video duration" ∧
    parseTimeToSeconds "0:05" = some 5 ∧ 10 < 100 ∧ 5 ≤ 100 := by
  decide

/-- C4 (amended): whenever the media duration is known and nonzero,
`validateTrimTimes` fails with StartBeyondMedia for every well-formed,
correctly ordered range whose parsed start is at least the duration, and
with EndBeyondMedia whenever the start is within bounds but the parsed end
exceeds the duration; for a known duration of 0 (falsy in the source) the
bounds checks are skipped, so every well-formed, correctly ordered range is
accepted. -/
theorem c4_bounds_checks :
    (∀ (s e : String) (dv sv ev : Nat), parseTimeToSeconds s = some sv →
        parseTimeToSeconds e = some ev → sv < ev → 0 < dv → dv ≤ sv →
        validateTrimTimes true s e (some dv) =
          .error "Start time cannot be greater than video duration") ∧
    (∀ (s e : String) (dv sv ev : Nat), parseTimeToSeconds s = some sv →
        parseTimeToSeconds e = some ev → sv < ev → 0 < dv → sv < dv → dv < ev →
        validateTrimTimes true s e (some dv) =
          .error "End time cannot be greater than video duration") ∧
    (∀ (s e : String) (sv ev : Nat), parseTimeToSeconds s = some sv →
        parseTimeToSeconds e = some ev → sv < ev →
        validateTrimTimes true s e (some 0) = .ok) := by
  refine ⟨validate_startBeyond, validate_endBeyond, fun s e sv ev hs he hlt => ?_⟩
  exact validate_ok s e (some 0) sv ev hs he hlt (Or.inr (Or.inl rfl))

/-- C4 witness: with duration 120, start "3:00" (180 seconds) is rejected as
beyond the media; with duration 0 the same well-formed range passes. -/
theorem c4_bounds_checks_witness :
    validateTrimTimes true "3:00" "4:00" (some 120) =
      .error "Start time cannot be greater than video duration" ∧
    validateTrimTimes true "3:00" "4:00" (some 0) = .ok :=
  ⟨c4_bounds_checks.1 "3:00" "4:00" 120 180 240 (by decide) (by decide) (by decide)
      (by decide) (by decide),
    c4_bounds_checks.2.2 "3:00" "4:00" 180 240 (by decide) (by decide) (by decide)⟩

/-- C4 counterexample: duration 0 is a known, non-null value, a parsed start
of 5 satisfies `start ≥ 0`, yet the well-formed ordered range "0:05"–"0:10"
is accepted rather than rejected with StartBeyondMedia, because the source's
truthiness test skips the bounds checks for a zero duration. -/
theorem c4_counterexample :
    parseTimeToSeconds "0:05" = some 5 ∧ parseTimeToSeconds "0:10" = some 10 ∧
    validateTrimTimes true "0:05" "0:10" (some 0) = .ok ∧
    validateTrimTimes true "0:05" "0:10" (some 0) ≠
      .error "Start time cannot be greater than video duration" := by
  decide

/-- C8: with trimming disabled, `validateTrimTimes` succeeds for every pair
of input strings and every media duration, reporting no error and producing
no range. -/
theorem c8_disabled_always_ok :
    ∀ (s e : String) (d : Option Nat), validateTrimTimes false s e d = .ok := by
  intro s e d
  rfl

/-- C9: the trim range handed to the download request is exactly the ordered
pair `[startSeconds, endSeconds]` parsed from the validated inputs when
trimming is enabled, and exactly `null` when trimming is disabled. -/
theorem c9_payload_trim_times :
    ∀ (s e : String) (d : Option Nat) (url fid : String),
      (validateTrimTimes true s e d = .ok →
        ∃ sv ev, parseTimeToSeconds s = some sv ∧ parseTimeToSeconds e = some ev ∧
          (mkDownloadPayload url fid (prepareTrimTimes true s e)).trim_times =
            some [some sv, some ev]) ∧
      (mkDownloadPayload url fid (prepareTrimTimes false s e)).trim_times = none := by
  intro s e d url fid
  constructor
  · intro hok
    cases hs : parseTimeToSeconds s with
    | none =>
      rw [validate_badStart s e d hs] at hok
      exact absurd hok (by simp)
    | some sv =>
      cases he : parseTimeToSeconds e with
      | none =>
        rw [validate_badEnd s e d sv hs he] at hok
        exact absurd hok (by simp)
      | some ev =>
        exact ⟨sv, ev, rfl, rfl, by simp [mkDownloadPayload, prepareTrimTimes, hs, he]⟩
  · rfl

/-- C9 witness: the validated range "2:05"–"2:35" is serialized as the pair
of its parse results. -/
theorem c9_payload_trim_times_witness :
    ∃ sv ev, parseTimeToSeconds "2:05" = some sv ∧ parseTimeToSeconds "2:35" = some ev ∧
      (mkDownloadPayload "https://example" "137"
          (prepareTrimTimes true "2:05" "2:35")).trim_times = some [some sv, some ev] :=
  (c9_payload_trim_times "2:05" "2:35" none "https://example" "137").1 (by decide)

/-- C2: for every string of the shape 1–2 digits, a colon, exactly 2 digits
whose seconds component is in [0,59], `parseTimeToSeconds` returns
`minutes * 60 + seconds`; for every string of that shape with seconds ≥ 60,
and for every string not of that shape, it fails (returns `none`) rather
than returning a value. -/
theorem c2_parseTime_correct :
    (∀ (s : String) (m sec : Nat), TimePat s.data m sec → sec ≤ 59 →
        parseTimeToSeconds s = some (m * 60 + sec)) ∧
    (∀ (s : String) (m sec : Nat), TimePat s.data m sec → 60 ≤ sec →
        parseTimeToSeconds s = none) ∧
    (∀ s : String, (∀ m sec, ¬ TimePat s.data m sec) → parseTimeToSeconds s = none) :=
  ⟨fun _ _ _ h hle => parseTimeChars_of_pat h hle,
    fun _ _ _ h hge => parseTimeChars_of_pat_ge60 h hge,
    fun _ h => parseTimeChars_of_no_pat h⟩

/-- C2 witness: "2:05" parses to 125; "2:60" (seconds out of range) and
"abc" (no accepted shape) both fail. -/
theorem c2_parseTime_correct_witness :
    parseTimeToSeconds "2:05" = some 125 ∧ parseTimeToSeconds "2:60" = none ∧
    parseTimeToSeconds "abc" = none := by
  refine ⟨?_, ?_, ?_⟩
  · exact c2_parseTime_correct.1 "2:05" (dval '2') (10 * dval '0' + dval '5')
      (TimePat.short '2' '0' '5' (by decide) (by decide) (by decide)) (by decide)
  · exact c2_parseTime_correct.2.1 "2:60" (dval '2') (10 * dval '6' + dval '0')
      (TimePat.short '2' '6' '0' (by decide) (by decide) (by decide)) (by decide)
  · exact c2_parseTime_correct.2.2 "abc" (fun m sec h => by cases h)

/-- C3 counterexample: the source does not report two distinguishable
failure kinds.  The out-of-range input "1:75" and the malformed input "abc"
produce the very same parse result (`none`) and lead to the very same
validation outcome and message, so the two failure causes are not
distinguishable by the caller. -/
theorem c3_counterexample :
    parseTimeToSeconds "1:75" = none ∧ parseTimeToSeconds "abc" = none ∧
    parseTimeToSeconds "1:75" = parseTimeToSeconds "abc" ∧
    validateTrimTimes true "1:75" "1:30" none = validateTrimTimes true "abc" "1:30" none ∧
    validateTrimTimes true "1:75" "1:30" none =
      .error "Invalid start time format. Use MM:SS (e.g., 2:05)" := by
  decide

/-- C3 (amended): `parseTimeToSeconds` signals both failure causes —
malformed shape and seconds ≥ 60 — through the one undifferentiated result
`null` (`none`), so the caller cannot tell them apart; `validateTrimTimes`
maps every start-parse failure to the single start-format message and every
end-parse failure to the single end-format message. -/
theorem c3_single_failure_result :
    (∀ (s : String) (m sec : Nat), TimePat s.data m sec → 60 ≤ sec →
        parseTimeToSeconds s = none) ∧
    (∀ s : String, (∀ m sec, ¬ TimePat s.data m sec) → parseTimeToSeconds s = none) ∧
    (∀ (s e : String) (d : Option Nat), parseTimeToSeconds s = none →
        validateTrimTimes true s e d =
          .error "Invalid start time format. Use MM:SS (e.g., 2:05)") ∧
    (∀ (s e : String) (d : Option Nat) (sv : Nat), parseTimeToSeconds s = some sv →
        parseTimeToSeconds e = none →
        validateTrimTimes true s e d =
          .error "Invalid end time format. Use MM:SS (e.g., 2:35)") :=
  ⟨fun _ _ _ h hge => parseTimeChars_of_pat_ge60 h hge,
    fun _ h => parseTimeChars_of_no_pat h, validate_badStart, validate_badEnd⟩

/-- C3 witness: the out-of-range start "1:75" fails with the same start
message a malformed start would get, and a malformed end gets the end
message. -/
theorem c3_single_failure_result_witness :
    parseTimeToSeconds "1:75" = none ∧
    validateTrimTimes true "1:75" "1:30" (some 300) =
      .error "Invalid start time format. Use MM:SS (e.g., 2:05)" ∧
    validateTrimTimes true "1:30" "9x9" (some 300) =
      .error "Invalid end time format. Use MM:SS (e.g., 2:35)" := by
  refine ⟨c3_single_failure_result.1 "1:75" (dval '1') (10 * dval '7' + dval '5')
      (TimePat.short '1' '7' '5' (by decide) (by decide) (by decide)) (by decide),
    c3_single_failure_result.2.2.1 "1:75" "1:30" (some 300) (by decide),
    c3_single_failure_result.2.2.2 "1:30" "9x9" (some 300) 90 (by decide) (by decide)⟩

/-- One active tick moves `percent` forward by at most the drawn increment
and keeps it clamped at 90. -/
lemma tick_step (trim : Bool) (r : ℚ) (st : ProgressState)
    (ha : st.active = true) (hr0 : 0 ≤ r) (h90 : st.percent ≤ 90) :
    st.percent ≤ (tick trim r st).percent ∧
    (tick trim r st).percent ≤ st.percent + r ∧
    (tick trim r st).percent ≤ 90 := by
  simp only [tick, ha, if_pos]
  split
  next h => exact ⟨h90, by linarith, le_refl _⟩
  next h => exact ⟨by linarith, le_refl _, by linarith⟩

/-- A tick (active or not) preserves `0 ≤ percent ≤ 90`. -/
lemma tick_bounds (trim : Bool) (r : ℚ) (st : ProgressState)
    (hr0 : 0 ≤ r) (h0 : 0 ≤ st.percent) (h90 : st.percent ≤ 90) :
    0 ≤ (tick trim r st).percent ∧ (tick trim r st).percent ≤ 90 := by
  by_cases ha : st.active = true
  · obtain ⟨h1, h2, h3⟩ := tick_step trim r st ha hr0 h90
    exact ⟨le_trans h0 h1, h3⟩
  · unfold tick
    rw [if_neg ha]
    exact ⟨h0, h90⟩

/-- Folding nonnegative ticks over any state within bounds stays within
bounds. -/
lemma foldTicks_bounds (trim : Bool) :
    ∀ (rs : List ℚ) (st : ProgressState), (∀ r ∈ rs, 0 ≤ r) →
      0 ≤ st.percent → st.percent ≤ 90 →
      0 ≤ (rs.foldl (fun s r => tick trim r s) st).percent ∧
      (rs.foldl (fun s r => tick trim r s) st).percent ≤ 90 := by
  intro rs
  induction rs with
  | nil => exact fun st _ h0 h90 => ⟨h0, h90⟩
  | cons r rs ih =>
    intro st hr h0 h90
    have hr0 : 0 ≤ r := hr r (List.mem_cons_self r rs)
    obtain ⟨h0x, h90x⟩ := tick_bounds trim r st hr0 h0 h90
    simpa using ih (tick trim r st) (fun x hx => hr x (List.mem_cons_of_mem r hx)) h0x h90x

/-- C5: before completion, every active tick leaves `percent` non-decreasing,
advances it by at most the drawn increment (which is below 15), and keeps it
at or below 90; consequently every sequence of ticks with increments drawn
from [0, 15) keeps `percent` within `[0, 90]`. -/
theorem c5_progress_monotone :
    (∀ (trim : Bool) (r : ℚ) (st : ProgressState), st.active = true → 0 ≤ r → r < 15 →
        st.percent ≤ 90 →
        st.percent ≤ (tick trim r st).percent ∧
        (tick trim r st).percent ≤ st.percent + r ∧
        (tick trim r st).percent < st.percent + 15 ∧
        (tick trim r st).percent ≤ 90) ∧
    (∀ (trim : Bool) (rs : List ℚ), (∀ r ∈ rs, 0 ≤ r ∧ r < 15) →
        0 ≤ (runTicks trim rs).percent ∧ (runTicks trim rs).percent ≤ 90) := by
  constructor
  · intro trim r st ha hr0 hr15 h90
    obtain ⟨h1, h2, h3⟩ := tick_step trim r st ha hr0 h90
    exact ⟨h1, h2, by linarith, h3⟩
  · intro trim rs hr
    exact foldTicks_bounds trim rs initialProgress (fun r h => (hr r h).1)
      (by norm_num [initialProgress]) (by norm_num [initialProgress])

/-- C5 witness: a single tick of 5 from the initial state and a run of three
in-range ticks. -/
theorem c5_progress_monotone_witness :
    (initialProgress.percent ≤ (tick true 5 initialProgress).percent ∧
      (tick true 5 initialProgress).percent ≤ initialProgress.percent + 5 ∧
      (tick true 5 initialProgress).percent < initialProgress.percent + 15 ∧
      (tick true 5 initialProgress).percent ≤ 90) ∧
    0 ≤ (runTicks true [5, 10, 14]).percent ∧ (runTicks true [5, 10, 14]).percent ≤ 90 := by
  refine ⟨c5_progress_monotone.1 true 5 initialProgress rfl (by norm_num) (by norm_num)
    (by norm_num [initialProgress]), c5_progress_monotone.2 true [5, 10, 14] ?_⟩
  intro r hr
  fin_cases hr <;> norm_num

/-- C6: completing forces `percent = 100` with the terminal label and tears
the timer down, a tick applied to the completed state is a no-op, and
completing twice yields the same terminal state as completing once. -/
theorem c6_complete_terminal :
    ∀ (st : ProgressState) (trim : Bool) (r : ℚ),
      (completeProgress st).percent = 100 ∧
      (completeProgress st).label = "Download complete!" ∧
      (completeProgress st).active = false ∧
      tick trim r (completeProgress st) = completeProgress st ∧
      completeProgress (completeProgress st) = completeProgress st := by
  intro st trim r
  exact ⟨rfl, rfl, rfl, rfl, rfl⟩

/-- C7 counterexample: at `percent` exactly 30 with trimming enabled the
source still shows the downloading label (its threshold is the strict
`progress > 30`), not the processing label the claim's band `[30, 60)`
demands; likewise at exactly 60 it shows the processing label, not the
trimming one. -/
theorem c7_counterexample :
    statusLabel 30 true = "Downloading..." ∧
    statusLabel 30 true ≠ "Processing video..." ∧
    statusLabel 60 true = "Processing video..." ∧
    statusLabel 60 true ≠ "Trimming video..." := by
  decide

/-- C7 (amended): the phase label is a pure function of `percent` and the
trimming flag, with strict thresholds: at or below 30 it is DOWNLOADING;
above 30 and at or below 60 with trimming enabled it is PROCESSING; above 60
with trimming enabled it is TRIMMING; with trimming disabled it is
DOWNLOADING for every percent. -/
theorem c7_label_bands :
    ∀ (p : ℚ) (trim : Bool),
      (p ≤ 30 → statusLabel p trim = "Downloading...") ∧
      (trim = true → 30 < p → p ≤ 60 → statusLabel p trim = "Processing video...") ∧
      (trim = true → 60 < p → statusLabel p trim = "Trimming video...") ∧
      (trim = false → statusLabel p trim = "Downloading...") := by
  intro p trim
  refine ⟨fun h => ?_, fun ht h30 h60 => ?_, fun ht h60 => ?_, fun ht => ?_⟩
  · have h1 : ¬(30 < p ∧ trim = true) := fun hc => absurd h (not_le.mpr hc.1)
    have h2 : ¬(60 < p ∧ trim = true) := fun hc => absurd h (by linarith [hc.1])
    simp [statusLabel, h1, h2]
  · simp [statusLabel, not_lt.mpr h60, h30, ht]
  · simp [statusLabel, h60, ht]
  · simp [statusLabel, ht]

/-- C7 witness: the label at representative percents in each band. -/
theorem c7_label_bands_witness :
    statusLabel 20 true = "Downloading..." ∧
    statusLabel 45 true = "Processing video..." ∧
    statusLabel 75 true = "Trimming video..." ∧
    statusLabel 75 false = "Downloading..." :=
  ⟨(c7_label_bands 20 true).1 (by norm_num),
    (c7_label_bands 45 true).2.1 rfl (by norm_num) (by norm_num),
    (c7_label_bands 75 true).2.2.1 rfl (by norm_num),
    (c7_label_bands 75 false).2.2.2 rfl⟩

/-- Digits below 10 render as ASCII digit characters. -/
lemma digitChar_isDigit : ∀ n, n < 10 → (digitChar n).isDigit = true := by
  decide

/-- Rendering then reading a digit below 10 is the identity. -/
lemma dval_digitChar : ∀ n, n < 10 → dval (digitChar n) = n := by
  decide

/-- One-digit numbers render as a single character. -/
lemma natToDecimal_lt10 {n : Nat} (h : n < 10) : natToDecimal n = [digitChar n] := by
  rw [natToDecimal]
  simp [h]

/-- Two-digit numbers render as their tens and units characters. -/
lemma natToDecimal_lt100 {n : Nat} (h10 : 10 ≤ n) (h : n < 100) :
    natToDecimal n = [digitChar (n / 10), digitChar (n % 10)] := by
  rw [natToDecimal, dif_neg (by omega)]
  rw [natToDecimal_lt10 (show n / 10 < 10 by omega)]
  rfl

/-- The decimal rendering is never empty. -/
lemma natToDecimal_length_pos (n : Nat) : 1 ≤ (natToDecimal n).length := by
  rw [natToDecimal]
  split
  · simp
  · simp

/-- Numbers of at least two digits render with at least two characters. -/
lemma natToDecimal_length2 {n : Nat} (h : 10 ≤ n) : 2 ≤ (natToDecimal n).length := by
  rw [natToDecimal, dif_neg (by omega)]
  have := natToDecimal_length_pos (n / 10)
  simp only [List.length_append, List.length_cons, List.length_nil]
  omega

/-- Numbers of at least three digits render with at least three
characters. -/
lemma natToDecimal_length3 {n : Nat} (h : 100 ≤ n) : 3 ≤ (natToDecimal n).length := by
  rw [natToDecimal, dif_neg (by omega)]
  have := natToDecimal_length2 (show 10 ≤ n / 10 by omega)
  simp only [List.length_append, List.length_cons, List.length_nil]
  omega

/-- Padding yields at least two characters. -/
lemma padStart2_length (cs : List Char) : 2 ≤ (padStart2 cs).length := by
  unfold padStart2
  split
  next h => simp only [List.length_append, List.length_replicate]; omega
  next h => omega

/-- A seconds value below 60 always pads to exactly its tens and units
characters (the pad supplies the leading zero for one-digit values). -/
lemma padSec {sec : Nat} (h : sec < 60) :
    padStart2 (natToDecimal sec) = [digitChar (sec / 10), digitChar (sec % 10)] := by
  by_cases h10 : sec < 10
  · rw [natToDecimal_lt10 h10, Nat.div_eq_of_lt h10, Nat.mod_eq_of_lt h10]
    rfl
  · rw [natToDecimal_lt100 (by omega) (by omega)]
    rfl

/-- Character lists of six or more characters never parse. -/
lemma parseTimeChars_len_none : ∀ (cs : List Char), 6 ≤ cs.length → parseTimeChars cs = none := by
  intro cs h
  match cs with
  | [] => simp at h
  | [_] => simp at h
  | [_, _] => simp at h
  | [_, _, _] => simp at h
  | [_, _, _, _] => simp at h
  | [_, _, _, _, _] => simp at h
  | _ :: _ :: _ :: _ :: _ :: _ :: _ => rfl

/-- Round trip for representable times. -/
lemma roundtrip_le (s : Nat) (h : s ≤ 5999) :
    parseTimeToSeconds (secondsToTimeStr s) = some s := by
  have hm : s / 60 < 100 := by omega
  have hsec : s % 60 < 60 := Nat.mod_lt _ (by omega)
  show parseTimeChars (natToDecimal (s / 60) ++ ':' :: padStart2 (natToDecimal (s % 60))) =
    some s
  rw [padSec hsec]
  by_cases hm10 : s / 60 < 10
  · rw [natToDecimal_lt10 hm10]
    show parseTimeChars
      [digitChar (s / 60), ':', digitChar (s % 60 / 10), digitChar (s % 60 % 10)] = some s
    simp only [parseTimeChars]
    rw [if_pos ⟨digitChar_isDigit _ hm10, trivial, digitChar_isDigit _ (by omega),
      digitChar_isDigit _ (by omega)⟩]
    rw [dval_digitChar _ hm10, dval_digitChar _ (by omega), dval_digitChar _ (by omega)]
    rw [if_neg (by omega)]
    congr 1
    omega
  · rw [natToDecimal_lt100 (by omega) hm]
    show parseTimeChars [digitChar (s / 60 / 10), digitChar (s / 60 % 10), ':',
      digitChar (s % 60 / 10), digitChar (s % 60 % 10)] = some s
    simp only [parseTimeChars]
    rw [if_pos ⟨digitChar_isDigit _ (by omega), digitChar_isDigit _ (by omega), trivial,
      digitChar_isDigit _ (by omega), digitChar_isDigit _ (by omega)⟩]
    rw [dval_digitChar _ (by omega), dval_digitChar _ (by omega),
      dval_digitChar _ (by omega), dval_digitChar _ (by omega)]
    rw [if_neg (by omega)]
    congr 1
    omega

/-- Times of 100 minutes or more render with a three-or-more-digit minutes
field and are rejected on the way back. -/
lemma roundtrip_ge (s : Nat) (h : 6000 ≤ s) :
    3 ≤ (natToDecimal (s / 60)).length ∧
    parseTimeToSeconds (secondsToTimeStr s) = none := by
  refine ⟨natToDecimal_length3 (by omega), ?_⟩
  show parseTimeChars (natToDecimal (s / 60) ++ ':' :: padStart2 (natToDecimal (s % 60))) =
    none
  apply parseTimeChars_len_none
  have h3 : 3 ≤ (natToDecimal (s / 60)).length := natToDecimal_length3 (by omega)
  have h2 := padStart2_length (natToDecimal (s % 60))
  simp only [List.length_append, List.length_cons]
  omega

/-- C10: for every `s ≤ 5999`, parsing the rendered time string gives back
`s`; for every `s ≥ 6000` the rendered string has a minutes field of three
or more digits and `parseTimeToSeconds` rejects it, so such times are not
representable through the parse/format pair. -/
theorem c10_roundtrip :
    (∀ s : Nat, s ≤ 5999 → parseTimeToSeconds (secondsToTimeStr s) = some s) ∧
    (∀ s : Nat, 6000 ≤ s → 3 ≤ (natToDecimal (s / 60)).length ∧
        parseTimeToSeconds (secondsToTimeStr s) = none) :=
  ⟨roundtrip_le, roundtrip_ge⟩

/-- C10 witness: 125 seconds survives the round trip; 6000 seconds renders
with a three-digit minutes field and fails to parse back. -/
theorem c10_roundtrip_witness :
    parseTimeToSeconds (secondsToTimeStr 125) = some 125 ∧
    3 ≤ (natToDecimal (6000 / 60)).length ∧
    parseTimeToSeconds (secondsToTimeStr 6000) = none :=
  ⟨c10_roundtrip.1 125 (by norm_num), (c10_roundtrip.2 6000 (by norm_num)).1,
    (c10_roundtrip.2 6000 (by norm_num)).2⟩

end App
